import Mathlib

/-! Shallow embedding of app.py, a Flask REST API over a SAP HANA table
(PRODUCT_EMBEDDINGS).  External collaborators are modelled as explicit
oracle parameters: the hdbcli dial primitive (dbapi.connect) is a function
from the 1-indexed attempt number and the configuration to a result, the
traceback formatting library is a function from an exception to a string,
and the HTTP transport is implicit in the handler signatures.  Observable
effects (dial attempts, time.sleep calls, conn.close calls, table state)
are recorded in explicit trace structures. -/

/-- JSON values, used both for request payloads (as parsed by
request.get_json) and for response bodies (as produced by jsonify).
Python None and JSON null are both jnull. -/
inductive JVal where
  | jnull
  | jbool (b : Bool)
  | jint (n : Int)
  | jstr (s : String)
  | jarr (items : List JVal)
  | jobj (fields : List (String × JVal))

/-- Python exceptions as raised by app.py and its collaborators: either a
RuntimeError (the single type app.py itself raises, at three sites) or any
other subclass of Exception, tagged with its type name. -/
inductive Exc where
  | runtimeError (msg : String)
  | otherExc (ty : String) (msg : String)
  deriving DecidableEq

/-- The dynamic type (kind) of an exception, the discrimination available
to an except clause. -/
inductive ExcKind where
  | runtimeErrorKind
  | otherKind (ty : String)
  deriving DecidableEq

/-- The kind (Python type) of an exception. -/
def Exc.kind : Exc → ExcKind
  | Exc.runtimeError _ => ExcKind.runtimeErrorKind
  | Exc.otherExc t _ => ExcKind.otherKind t

/-- Python str(e): the message carried by the exception. -/
def Exc.str : Exc → String
  | Exc.runtimeError m => m
  | Exc.otherExc _ m => m

/-- Kind of the error of a connect result, when it is an error. -/
def errKindOf : Except Exc Unit → Option ExcKind
  | Except.error e => some e.kind
  | Except.ok _ => none

/-- The process environment variables read by app.py via os.environ.get;
a missing variable is none. -/
structure EnvVars where
  HANA_ADDRESS : Option String
  HANA_PORT : Option String
  HANA_USER : Option String
  HANA_PASSWORD : Option String
  HANA_ENCRYPT : Option String
  HANA_SSL_VALIDATE : Option String

/-- The configuration dict built by hana_cfg (app.py lines 16-24). -/
structure HanaCfg where
  address : Option String
  port : Int
  user : Option String
  password : Option String
  encrypt : Bool
  sslValidateCertificate : Bool

/-- Python str.isspace-style whitespace stripped by int(). -/
def pySpace (c : Char) : Bool :=
  c == ' ' || c == '\t' || c == '\n' || c == '\r'

/-- Strip surrounding whitespace from a character list. -/
def trimChars (l : List Char) : List Char :=
  ((l.dropWhile pySpace).reverse.dropWhile pySpace).reverse

/-- Accumulate the value of a nonempty all-digit character list. -/
def digitsVal (l : List Char) (acc : Nat) : Option Nat :=
  match l with
  | [] => some acc
  | c :: rest =>
      if c.isDigit then digitsVal rest (acc * 10 + (c.toNat - 48)) else none

/-- Model of the Python builtin int() applied to a string: surrounding
whitespace and an optional sign are accepted, then decimal digits are
required. -/
def pyIntParse (s : String) : Option Int :=
  match trimChars s.data with
  | [] => none
  | c :: rest =>
    if c == '-' then
      match rest with
      | [] => none
      | _ => (digitsVal rest 0).map (fun n => -(n : Int))
    else if c == '+' then
      match rest with
      | [] => none
      | _ => (digitsVal rest 0).map (fun n => (n : Int))
    else (digitsVal (c :: rest) 0).map (fun n => (n : Int))

/-- Message of the ValueError raised by int() on a non-numeric string. -/
def intParseErrMsg (s : String) : String :=
  "invalid literal for int() with base 10: " ++ s

/-- int(os.environ.get("HANA_PORT", 443)): the default is already the
integer 443, so only a set variable is parsed (and can raise). -/
def parsePort (v : Option String) : Except Exc Int :=
  match v with
  | none => Except.ok 443
  | some s =>
    match pyIntParse s with
    | some n => Except.ok n
    | none => Except.error (Exc.otherExc "ValueError" (intParseErrMsg s))

/-- Python str.lower restricted to ASCII, character by character. -/
def pyLower (s : String) : String :=
  ⟨s.data.map Char.toLower⟩

/-- os.environ.get(var, dflt).lower() in ("1","true","yes"). -/
def envFlag (v : Option String) (dflt : String) : Bool :=
  let s := pyLower (v.getD dflt)
  s == "1" || s == "true" || s == "yes"

/-- hana_cfg (app.py lines 16-24): builds the configuration dict from the
environment; int() on a non-numeric HANA_PORT raises a ValueError. -/
def hana_cfg (env : EnvVars) : Except Exc HanaCfg :=
  match parsePort env.HANA_PORT with
  | Except.error e => Except.error e
  | Except.ok p =>
      Except.ok ⟨env.HANA_ADDRESS, p, env.HANA_USER, env.HANA_PASSWORD,
        envFlag env.HANA_ENCRYPT "true", envFlag env.HANA_SSL_VALIDATE "false"⟩

/-- Python truthiness of an optional string (a missing value is None,
hence falsy; an empty string is falsy). -/
def optStrTruthy : Option String → Bool
  | none => false
  | some s => s != ""

/-- Message of the RuntimeError raised on missing mandatory fields. -/
def cfgMissingMsg : String :=
  "HANA config missing; set HANA_ADDRESS, HANA_PORT, HANA_USER, HANA_PASSWORD env vars."

/-- Message of the RuntimeError raised when hdbcli is not importable. -/
def noDriverMsg : String := "hdbcli not installed in container"

/-- The terminal failure message of connect_hana (app.py lines 44-45):
it interpolates the attempt count, str(last) and the formatted traceback
of the last underlying error. -/
def connFailMsg (retries : Nat) (ex : Exc) (tbFmt : Exc → String) : String :=
  "Unable to connect to HANA after " ++ toString retries ++
    " attempts. Last error: " ++ ex.str ++ "\nTraceback:\n" ++ tbFmt ex

/-- Terminal failure message, covering the degenerate retries=0 case in
which last is still None. -/
def connFailMsgOpt (retries : Nat) (last : Option Exc) (tbFmt : Exc → String) : String :=
  match last with
  | some ex => connFailMsg retries ex tbFmt
  | none =>
      "Unable to connect to HANA after " ++ toString retries ++
        " attempts. Last error: None\nTraceback:\nNoneType: None\n"

/-- Observable outcome of one call to connect_hana: how many times the
dial primitive was invoked, which sleeps were performed (in order, in
units of seconds as rationals), and the returned session or raised
exception. -/
structure ConnectTrace where
  attempts : Nat
  sleeps : List ℚ
  result : Except Exc Unit

/-- The retry loop of connect_hana (app.py lines 33-45): for i in
range(1, retries+1), try the dial; on success return; on any exception
record it as last and sleep backoff*i; after the loop raise the terminal
RuntimeError.  Arguments: remaining iterations, current 1-indexed attempt
number i, sleeps so far, last captured error. -/
def connectLoop (dial : Nat → HanaCfg → Except Exc Unit) (cfg : HanaCfg)
    (b : ℚ) (retries : Nat) (tbFmt : Exc → String) :
    Nat → Nat → List ℚ → Option Exc → ConnectTrace
  | 0, i, sleeps, last =>
      ⟨i - 1, sleeps, Except.error (Exc.runtimeError (connFailMsgOpt retries last tbFmt))⟩
  | remaining + 1, i, sleeps, _last =>
      match dial i cfg with
      | Except.ok _ => ⟨i, sleeps, Except.ok ()⟩
      | Except.error e =>
          connectLoop dial cfg b retries tbFmt remaining (i + 1)
            (sleeps ++ [b * (i : ℚ)]) (some e)

/-- connect_hana (app.py lines 26-45).  driver is whether importing
hdbcli succeeded (dbapi is not None); dial is the dbapi.connect
primitive, indexed by the 1-based attempt number; tbFmt is the traceback
formatting library.  In the source retries defaults to 3 and backoff to
1.0; callers inside app.py use the defaults. -/
def connect_hana (driver : Bool) (env : EnvVars)
    (dial : Nat → HanaCfg → Except Exc Unit) (tbFmt : Exc → String)
    (retries : Nat) (b : ℚ) : ConnectTrace :=
  if driver = false then
    ⟨0, [], Except.error (Exc.runtimeError noDriverMsg)⟩
  else
    match hana_cfg env with
    | Except.error e => ⟨0, [], Except.error e⟩
    | Except.ok cfg =>
        if !optStrTruthy cfg.address || !optStrTruthy cfg.user || !optStrTruthy cfg.password then
          ⟨0, [], Except.error (Exc.runtimeError cfgMissingMsg)⟩
        else
          connectLoop dial cfg b retries tbFmt retries 1 [] none

/-- An HTTP response: status code and JSON body. -/
structure HttpResponse where
  status : Nat
  body : JVal

/-- The api_ok decorator (app.py lines 47-56): runs the wrapped handler;
a RuntimeError becomes 502 connection_error, any other Exception becomes
500 internal with the formatted traceback of the current exception. -/
def api_ok (tbFmt : Exc → String) (h : Except Exc HttpResponse) : HttpResponse :=
  match h with
  | Except.ok r => r
  | Except.error (Exc.runtimeError m) =>
      ⟨502, JVal.jobj [("error", JVal.jstr "connection_error"), ("message", JVal.jstr m)]⟩
  | Except.error (Exc.otherExc t m) =>
      ⟨500, JVal.jobj [("error", JVal.jstr "internal"), ("message", JVal.jstr m),
        ("trace", JVal.jstr (tbFmt (Exc.otherExc t m)))]⟩

/-- One row of the externally owned PRODUCT_EMBEDDINGS table.  NAME is an
NVARCHAR column (a string).  DESCRIPTION and VECTOR are kept as fetched
JSON-level values since the table is external and may hold NULLs. -/
structure ProductRow where
  product_id : Int
  name : String
  description : JVal
  vector : JVal

/-- Python dict.get(k) on a JSON object: None both when the key is absent
and when the stored value is null, exactly as in the source, which never
distinguishes the two through this accessor. -/
def dictGet (d : List (String × JVal)) (k : String) : JVal :=
  match d.find? (fun p => p.1 == k) with
  | some p => p.2
  | none => JVal.jnull

/-- Python dict.get(k, dflt): the default applies only when the key is
absent, not when it is present with value null. -/
def dictGetD (d : List (String × JVal)) (k : String) (dflt : JVal) : JVal :=
  match d.find? (fun p => p.1 == k) with
  | some p => p.2
  | none => dflt

/-- Python truthiness of a JSON value (if not name: in the source). -/
def jTruthy : JVal → Bool
  | JVal.jnull => false
  | JVal.jbool b => b
  | JVal.jint n => n != 0
  | JVal.jstr s => s != ""
  | JVal.jarr items => !items.isEmpty
  | JVal.jobj fields => !fields.isEmpty

/-- The Python test x is None on a JSON-derived value. -/
def isPyNone : JVal → Bool
  | JVal.jnull => true
  | _ => false

/-- Driver-level binding of a Python value into a string column.  Only
the string case is exercised by handlers that reach an INSERT with a
truthy string name; the other renderings follow Python str(). -/
def jBindStr : JVal → String
  | JVal.jstr s => s
  | JVal.jint n => toString n
  | JVal.jbool b => if b then "True" else "False"
  | JVal.jnull => "None"
  | JVal.jarr _ => ""
  | JVal.jobj _ => ""

/-- SQL SELECT MAX(PRODUCT_ID): NULL (none) on an empty table, otherwise
the greatest identifier. -/
def dbMaxId : List ProductRow → Option Int
  | [] => none
  | r :: rs =>
    match dbMaxId rs with
    | none => some r.product_id
    | some m => some (max m r.product_id)

/-- Insertion into a list sorted by ascending product_id. -/
def insertById (r : ProductRow) : List ProductRow → List ProductRow
  | [] => [r]
  | x :: xs =>
      if r.product_id ≤ x.product_id then r :: x :: xs else x :: insertById r xs

/-- SQL ORDER BY PRODUCT_ID on the fetched rows. -/
def sortById : List ProductRow → List ProductRow
  | [] => []
  | r :: rs => insertById r (sortById rs)

/-- The JSON object built for one row by list_products. -/
def rowJson (r : ProductRow) : JVal :=
  JVal.jobj [("product_id", JVal.jint r.product_id), ("name", JVal.jstr r.name),
    ("description", r.description)]

/-- Observable outcome of one handler invocation: the handler body result
(ok response, or the exception it raises to the api_ok wrapper), the dial
attempts and sleeps performed by connect_hana on its behalf, the number
of conn.close() calls, and the table state afterwards. -/
structure HTrace where
  result : Except Exc HttpResponse
  attempts : Nat
  sleeps : List ℚ
  closes : Nat
  db : List ProductRow

/-- list_products (app.py lines 90-98): connect, SELECT all rows ordered
by id, close cursor and connection, return the JSON.  sqlFault injects an
exception raised by cur.execute or fetchall; in the source no close is
reached on that path. -/
def list_products (driver : Bool) (env : EnvVars)
    (dial : Nat → HanaCfg → Except Exc Unit) (tbFmt : Exc → String)
    (db : List ProductRow) (sqlFault : Option Exc) : HTrace :=
  let c := connect_hana driver env dial tbFmt 3 1
  match c.result with
  | Except.error e => ⟨Except.error e, c.attempts, c.sleeps, 0, db⟩
  | Except.ok _ =>
    match sqlFault with
    | some e => ⟨Except.error e, c.attempts, c.sleeps, 0, db⟩
    | none =>
        ⟨Except.ok ⟨200, JVal.jobj [("products", JVal.jarr ((sortById db).map rowJson))]⟩,
          c.attempts, c.sleeps, 1, db⟩

/-- insert_product (app.py lines 100-114): validate name before any
connection, then connect, SELECT MAX, compute max+1 (0 base on NULL),
INSERT, commit, close, 201.  sqlFault injects an exception raised during
SQL execution; no close is reached on that path in the source. -/
def insert_product (driver : Bool) (env : EnvVars)
    (dial : Nat → HanaCfg → Except Exc Unit) (tbFmt : Exc → String)
    (db : List ProductRow) (payload : List (String × JVal))
    (sqlFault : Option Exc) : HTrace :=
  let name := dictGet payload "name"
  let description := dictGetD payload "description" (JVal.jstr "")
  if !jTruthy name then
    ⟨Except.ok ⟨400, JVal.jobj [("error", JVal.jstr "name_required")]⟩, 0, [], 0, db⟩
  else
    let c := connect_hana driver env dial tbFmt 3 1
    match c.result with
    | Except.error e => ⟨Except.error e, c.attempts, c.sleeps, 0, db⟩
    | Except.ok _ =>
      match sqlFault with
      | some e => ⟨Except.error e, c.attempts, c.sleeps, 0, db⟩
      | none =>
          let newId := (dbMaxId db).getD 0 + 1
          ⟨Except.ok ⟨201, JVal.jobj [("status", JVal.jstr "ok"),
              ("product_id", JVal.jint newId)]⟩,
            c.attempts, c.sleeps, 1,
            db ++ [⟨newId, jBindStr name, description, JVal.jnull⟩]⟩

/-- update_product (app.py lines 116-126): the description is fetched
with dict.get and tested with is None before any connection; then
connect, UPDATE every row whose NAME equals the path parameter, commit,
read rowcount, close, 200. -/
def update_product (driver : Bool) (env : EnvVars)
    (dial : Nat → HanaCfg → Except Exc Unit) (tbFmt : Exc → String)
    (db : List ProductRow) (name : String) (payload : List (String × JVal))
    (sqlFault : Option Exc) : HTrace :=
  let description := dictGet payload "description"
  if isPyNone description then
    ⟨Except.ok ⟨400, JVal.jobj [("error", JVal.jstr "description_required")]⟩, 0, [], 0, db⟩
  else
    let c := connect_hana driver env dial tbFmt 3 1
    match c.result with
    | Except.error e => ⟨Except.error e, c.attempts, c.sleeps, 0, db⟩
    | Except.ok _ =>
      match sqlFault with
      | some e => ⟨Except.error e, c.attempts, c.sleeps, 0, db⟩
      | none =>
          let rows := (db.filter (fun r => r.name == name)).length
          ⟨Except.ok ⟨200, JVal.jobj [("status", JVal.jstr "ok"),
              ("rows_affected", JVal.jint (rows : Int))]⟩,
            c.attempts, c.sleeps, 1,
            db.map (fun r => if r.name == name then
              ⟨r.product_id, r.name, description, r.vector⟩ else r)⟩

/-- Concrete environment with all mandatory variables set. -/
def envFull : EnvVars :=
  ⟨some "db.example.com", some "443", some "alice", some "secretpw", none, none⟩

/-- Concrete environment missing the address. -/
def envNoAddr : EnvVars :=
  ⟨none, some "443", some "alice", some "secretpw", none, none⟩

/-- Concrete environment with a non-numeric port. -/
def envBadPort : EnvVars :=
  ⟨some "db.example.com", some "abc", some "alice", some "secretpw", none, none⟩

/-- The configuration hana_cfg builds from envFull. -/
def cfgFull : HanaCfg :=
  ⟨some "db.example.com", 443, some "alice", some "secretpw", true, false⟩

/-- A concrete underlying dial failure. -/
def excRefused : Exc := Exc.otherExc "ConnectionRefusedError" "connection refused"

/-- A dial primitive that fails on every attempt. -/
def dialFailAll : Nat → HanaCfg → Except Exc Unit :=
  fun _ _ => Except.error excRefused

/-- A dial primitive that succeeds on every attempt. -/
def dialOkAll : Nat → HanaCfg → Except Exc Unit :=
  fun _ _ => Except.ok ()

/-- A dial primitive that fails on attempts 1 and 2 and succeeds on 3. -/
def dialThird : Nat → HanaCfg → Except Exc Unit :=
  fun i _ => if i ≤ 2 then Except.error excRefused else Except.ok ()

/-- A concrete traceback formatter with nonempty output. -/
def tbConst : Exc → String := fun _ => "Traceback (most recent call last):"

/-- A concrete table state whose greatest identifier is 5. -/
def dbSample : List ProductRow :=
  [⟨5, "Widget", JVal.jstr "w", JVal.jnull⟩, ⟨2, "Gadget", JVal.jstr "g", JVal.jnull⟩]

/-- A concrete SQL-level failure. -/
def sqlBoom : Exc := Exc.otherExc "ProgrammingError" "SQL error"

/-- POST body with a nonempty name. -/
def payloadNamed : List (String × JVal) := [("name", JVal.jstr "Widget")]

/-- PUT body carrying an empty-string description. -/
def payloadDescEmpty : List (String × JVal) := [("description", JVal.jstr "")]

/-- PUT body carrying an explicit null description. -/
def payloadDescNull : List (String × JVal) := [("description", JVal.jnull)]

/-- An empty JSON body. -/
def payloadEmpty : List (String × JVal) := []

/-- One failed iteration of the retry loop: the error is captured as last
and a sleep of backoff times the attempt number is performed. -/
lemma connectLoop_fail (dial : Nat → HanaCfg → Except Exc Unit) (cfg : HanaCfg)
    (b : ℚ) (retries : Nat) (tbFmt : Exc → String)
    (remaining i : Nat) (sleeps : List ℚ) (last : Option Exc) (ex : Exc)
    (hd : dial i cfg = Except.error ex) :
    connectLoop dial cfg b retries tbFmt (remaining + 1) i sleeps last
      = connectLoop dial cfg b retries tbFmt remaining (i + 1)
          (sleeps ++ [b * (i : ℚ)]) (some ex) := by
  simp [connectLoop, hd]

/-- One successful iteration of the retry loop: the session is returned
at once, with no further attempt and no further sleep. -/
lemma connectLoop_ok (dial : Nat → HanaCfg → Except Exc Unit) (cfg : HanaCfg)
    (b : ℚ) (retries : Nat) (tbFmt : Exc → String)
    (remaining i : Nat) (sleeps : List ℚ) (last : Option Exc)
    (hd : dial i cfg = Except.ok ()) :
    connectLoop dial cfg b retries tbFmt (remaining + 1) i sleeps last
      = ⟨i, sleeps, Except.ok ()⟩ := by
  simp [connectLoop, hd]

/-- Exhausted retry loop: the terminal RuntimeError is raised. -/
lemma connectLoop_zero (dial : Nat → HanaCfg → Except Exc Unit) (cfg : HanaCfg)
    (b : ℚ) (retries : Nat) (tbFmt : Exc → String)
    (i : Nat) (sleeps : List ℚ) (last : Option Exc) :
    connectLoop dial cfg b retries tbFmt 0 i sleeps last
      = ⟨i - 1, sleeps, Except.error (Exc.runtimeError (connFailMsgOpt retries last tbFmt))⟩ :=
  rfl

/-- With the driver present and a well-formed, complete configuration,
connect_hana enters its retry loop at attempt 1. -/
lemma connect_hana_valid (env : EnvVars) (cfg : HanaCfg)
    (dial : Nat → HanaCfg → Except Exc Unit) (tbFmt : Exc → String)
    (retries : Nat) (b : ℚ)
    (hc : hana_cfg env = Except.ok cfg)
    (ha : optStrTruthy cfg.address = true)
    (hu : optStrTruthy cfg.user = true)
    (hp : optStrTruthy cfg.password = true) :
    connect_hana true env dial tbFmt retries b
      = connectLoop dial cfg b retries tbFmt retries 1 [] none := by
  simp [connect_hana, hc, ha, hu, hp]

/-- With the driver present but a mandatory field missing or empty,
connect_hana raises the configuration RuntimeError with no dial attempt
and no sleep. -/
lemma connect_hana_missing (env : EnvVars) (cfg : HanaCfg)
    (dial : Nat → HanaCfg → Except Exc Unit) (tbFmt : Exc → String)
    (retries : Nat) (b : ℚ)
    (hc : hana_cfg env = Except.ok cfg)
    (hmiss : optStrTruthy cfg.address = false ∨ optStrTruthy cfg.user = false ∨
      optStrTruthy cfg.password = false) :
    connect_hana true env dial tbFmt retries b
      = ⟨0, [], Except.error (Exc.runtimeError cfgMissingMsg)⟩ := by
  rcases hmiss with h | h | h <;> simp [connect_hana, hc, h]

/-- A first-attempt success of the default connect_hana call made by the
handlers. -/
lemma connect_hana_firstTry (env : EnvVars) (cfg : HanaCfg)
    (dial : Nat → HanaCfg → Except Exc Unit) (tbFmt : Exc → String)
    (hc : hana_cfg env = Except.ok cfg)
    (ha : optStrTruthy cfg.address = true)
    (hu : optStrTruthy cfg.user = true)
    (hp : optStrTruthy cfg.password = true)
    (h1 : dial 1 cfg = Except.ok ()) :
    connect_hana true env dial tbFmt 3 1 = ⟨1, [], Except.ok ()⟩ :=
  (connect_hana_valid env cfg dial tbFmt 3 1 hc ha hu hp).trans
    (connectLoop_ok dial cfg 1 3 tbFmt 2 1 [] none h1)

/-- The full trace of connect_hana with three attempts when every dial
attempt fails: three dial calls, three sleeps (one after each failure,
the last one included), and the terminal RuntimeError built from the
third underlying error. -/
lemma connect_hana_allFail (env : EnvVars) (cfg : HanaCfg)
    (dial : Nat → HanaCfg → Except Exc Unit) (tbFmt : Exc → String)
    (b : ℚ) (e : Nat → Exc)
    (hc : hana_cfg env = Except.ok cfg)
    (ha : optStrTruthy cfg.address = true)
    (hu : optStrTruthy cfg.user = true)
    (hp : optStrTruthy cfg.password = true)
    (hdial : ∀ i, dial i cfg = Except.error (e i)) :
    connect_hana true env dial tbFmt 3 b
      = ⟨3, [b * 1, b * 2, b * 3],
          Except.error (Exc.runtimeError (connFailMsg 3 (e 3) tbFmt))⟩ := by
  have hsteps : connect_hana true env dial tbFmt 3 b
      = connectLoop dial cfg b 3 tbFmt 0 4
          ((([] ++ [b * ((1 : Nat) : ℚ)]) ++ [b * ((2 : Nat) : ℚ)]) ++ [b * ((3 : Nat) : ℚ)])
          (some (e 3)) :=
    (connect_hana_valid env cfg dial tbFmt 3 b hc ha hu hp).trans
      ((connectLoop_fail dial cfg b 3 tbFmt 2 1 [] none (e 1) (hdial 1)).trans
        ((connectLoop_fail dial cfg b 3 tbFmt 1 2 ([] ++ [b * ((1 : Nat) : ℚ)])
            (some (e 1)) (e 2) (hdial 2)).trans
          (connectLoop_fail dial cfg b 3 tbFmt 0 3
            (([] ++ [b * ((1 : Nat) : ℚ)]) ++ [b * ((2 : Nat) : ℚ)])
            (some (e 2)) (e 3) (hdial 3))))
  rw [hsteps, connectLoop_zero]
  norm_num [connFailMsgOpt]

/-- A nonempty table has a defined MAX(PRODUCT_ID). -/
lemma dbMaxId_ne_none (r : ProductRow) (rs : List ProductRow) :
    dbMaxId (r :: rs) ≠ none := by
  simp only [dbMaxId]
  cases dbMaxId rs <;> simp

/-- MAX(PRODUCT_ID) is attained by some row and bounds every row. -/
lemma dbMaxId_spec : ∀ (db : List ProductRow) (m : Int), dbMaxId db = some m →
    (∃ r ∈ db, r.product_id = m) ∧ ∀ r ∈ db, r.product_id ≤ m := by
  intro db
  induction db with
  | nil => intro m h; simp [dbMaxId] at h
  | cons r rs ih =>
    intro m h
    simp only [dbMaxId] at h
    cases hrs : dbMaxId rs with
    | none =>
      rw [hrs] at h
      have hm : r.product_id = m := by simpa using h
      cases rs with
      | nil =>
        refine ⟨⟨r, by simp, hm⟩, ?_⟩
        intro r2 hr2
        simp at hr2
        simp [hr2, hm]
      | cons x xs => exact absurd hrs (dbMaxId_ne_none x xs)
    | some m0 =>
      rw [hrs] at h
      have hm : max m0 r.product_id = m := by simpa using h
      obtain ⟨⟨r0, hr0, hid⟩, hub⟩ := ih m0 hrs
      constructor
      · rcases max_choice m0 r.product_id with hmx | hmx
        · exact ⟨r0, by simp [hr0], by rw [hid, ← hmx, hm]⟩
        · exact ⟨r, by simp, by rw [← hmx, hm]⟩
      · intro r2 hr2
        rcases List.mem_cons.mp hr2 with h2 | h2
        · rw [h2, ← hm]; exact le_max_right m0 r.product_id
        · calc r2.product_id ≤ m0 := hub r2 h2
            _ ≤ m := by rw [← hm]; exact le_max_left m0 r.product_id

/-- C1, as stated, fails on the code: with a complete configuration,
baseDelay 1 and a dial primitive that fails on every attempt,
connect_hana does not sleep exactly 2 times with delays 1 and 2 — the
source sleeps inside the except clause of every iteration, the final one
included, so three sleeps occur. -/
theorem C1_counterexample :
    ¬ (connect_hana true envFull dialFailAll tbConst 3 1).sleeps = [1, 2] := by
  intro h
  have h3 : (connect_hana true envFull dialFailAll tbConst 3 1).sleeps.length = 3 := rfl
  rw [h] at h3
  simp at h3

/-- C1 amended: for every complete configuration and base delay, if every
dial attempt fails, connect_hana with 3 attempts makes exactly 3
sequential dial attempts, sleeps exactly 3 times — after every failed
attempt, the final one included — with delays baseDelay*1, baseDelay*2
and baseDelay*3, and raises a RuntimeError whose message carries the
attempt count 3, str of the most recent underlying error, and that
error's formatted diagnostic traceback. -/
theorem C1_amended (env : EnvVars) (cfg : HanaCfg)
    (dial : Nat → HanaCfg → Except Exc Unit) (tbFmt : Exc → String)
    (b : ℚ) (e : Nat → Exc)
    (hc : hana_cfg env = Except.ok cfg)
    (ha : optStrTruthy cfg.address = true)
    (hu : optStrTruthy cfg.user = true)
    (hp : optStrTruthy cfg.password = true)
    (hdial : ∀ i, dial i cfg = Except.error (e i)) :
    (connect_hana true env dial tbFmt 3 b).attempts = 3 ∧
    (connect_hana true env dial tbFmt 3 b).sleeps = [b * 1, b * 2, b * 3] ∧
    (connect_hana true env dial tbFmt 3 b).result
      = Except.error (Exc.runtimeError (connFailMsg 3 (e 3) tbFmt)) := by
  rw [connect_hana_allFail env cfg dial tbFmt b e hc ha hu hp hdial]
  exact ⟨rfl, rfl, rfl⟩

/-- C1 amended, witnessed at a concrete always-failing dial primitive. -/
theorem C1_amended_witness :
    (connect_hana true envFull dialFailAll tbConst 3 1).attempts = 3 ∧
    (connect_hana true envFull dialFailAll tbConst 3 1).sleeps = [1 * 1, 1 * 2, 1 * 3] ∧
    (connect_hana true envFull dialFailAll tbConst 3 1).result
      = Except.error (Exc.runtimeError (connFailMsg 3 ((fun _ => excRefused) 3) tbConst)) :=
  C1_amended envFull cfgFull dialFailAll tbConst 1 (fun _ => excRefused)
    rfl (by decide) (by decide) (by decide) (fun _ => rfl)

/-- C2: for k in 0, 1, 2, if the dial primitive fails exactly k times and
then succeeds, connect_hana with 3 attempts returns the open session on
attempt k+1, makes no further dial call, and sleeps exactly k times with
delays baseDelay*1 through baseDelay*k in order. -/
theorem C2_retry_success (env : EnvVars) (cfg : HanaCfg)
    (dial : Nat → HanaCfg → Except Exc Unit) (tbFmt : Exc → String)
    (b : ℚ) (k : Nat) (e : Nat → Exc)
    (hk : k ≤ 2)
    (hc : hana_cfg env = Except.ok cfg)
    (ha : optStrTruthy cfg.address = true)
    (hu : optStrTruthy cfg.user = true)
    (hp : optStrTruthy cfg.password = true)
    (hfail : ∀ i, 1 ≤ i → i ≤ k → dial i cfg = Except.error (e i))
    (hsucc : dial (k + 1) cfg = Except.ok ()) :
    (connect_hana true env dial tbFmt 3 b).attempts = k + 1 ∧
    (connect_hana true env dial tbFmt 3 b).sleeps
      = (List.range k).map (fun j => b * ((j : ℚ) + 1)) ∧
    (connect_hana true env dial tbFmt 3 b).result = Except.ok () := by
  interval_cases k
  · have hfin : connect_hana true env dial tbFmt 3 b = ⟨1, [], Except.ok ()⟩ :=
      (connect_hana_valid env cfg dial tbFmt 3 b hc ha hu hp).trans
        (connectLoop_ok dial cfg b 3 tbFmt 2 1 [] none hsucc)
    rw [hfin]
    exact ⟨rfl, by simp, rfl⟩
  · have hfin : connect_hana true env dial tbFmt 3 b
        = ⟨2, [] ++ [b * ((1 : Nat) : ℚ)], Except.ok ()⟩ :=
      (connect_hana_valid env cfg dial tbFmt 3 b hc ha hu hp).trans
        ((connectLoop_fail dial cfg b 3 tbFmt 2 1 [] none (e 1)
            (hfail 1 (by norm_num) (by norm_num))).trans
          (connectLoop_ok dial cfg b 3 tbFmt 1 2 ([] ++ [b * ((1 : Nat) : ℚ)])
            (some (e 1)) hsucc))
    rw [hfin]
    refine ⟨rfl, ?_, rfl⟩
    norm_num [List.range_succ]
  · have hfin : connect_hana true env dial tbFmt 3 b
        = ⟨3, ([] ++ [b * ((1 : Nat) : ℚ)]) ++ [b * ((2 : Nat) : ℚ)], Except.ok ()⟩ :=
      (connect_hana_valid env cfg dial tbFmt 3 b hc ha hu hp).trans
        ((connectLoop_fail dial cfg b 3 tbFmt 2 1 [] none (e 1)
            (hfail 1 (by norm_num) (by norm_num))).trans
          ((connectLoop_fail dial cfg b 3 tbFmt 1 2 ([] ++ [b * ((1 : Nat) : ℚ)])
              (some (e 1)) (e 2) (hfail 2 (by norm_num) (by norm_num))).trans
            (connectLoop_ok dial cfg b 3 tbFmt 0 3
              (([] ++ [b * ((1 : Nat) : ℚ)]) ++ [b * ((2 : Nat) : ℚ)])
              (some (e 2)) hsucc)))
    rw [hfin]
    refine ⟨rfl, ?_, rfl⟩
    norm_num [List.range_succ]

/-- C2, witnessed with a dial primitive failing twice then succeeding. -/
theorem C2_retry_success_witness :
    (connect_hana true envFull dialThird tbConst 3 1).attempts = 2 + 1 ∧
    (connect_hana true envFull dialThird tbConst 3 1).sleeps
      = (List.range 2).map (fun j => 1 * ((j : ℚ) + 1)) ∧
    (connect_hana true envFull dialThird tbConst 3 1).result = Except.ok () :=
  C2_retry_success envFull cfgFull dialThird tbConst 1 2 (fun _ => excRefused)
    (by norm_num) rfl (by decide) (by decide) (by decide)
    (fun i _ h2 => by simp [dialThird, h2]) (by simp [dialThird])

/-- C3: with the driver present, whenever the resolved configuration is
missing (or has an empty) address, user or password, connect_hana fails
at once with the configuration RuntimeError: zero dial attempts, zero
sleeps, no retry, for any retry budget and base delay. -/
theorem C3_config_missing (env : EnvVars) (cfg : HanaCfg)
    (dial : Nat → HanaCfg → Except Exc Unit) (tbFmt : Exc → String)
    (retries : Nat) (b : ℚ)
    (hc : hana_cfg env = Except.ok cfg)
    (hmiss : optStrTruthy cfg.address = false ∨ optStrTruthy cfg.user = false ∨
      optStrTruthy cfg.password = false) :
    connect_hana true env dial tbFmt retries b
      = ⟨0, [], Except.error (Exc.runtimeError cfgMissingMsg)⟩ :=
  connect_hana_missing env cfg dial tbFmt retries b hc hmiss

/-- C3, witnessed on an environment with no HANA_ADDRESS. -/
theorem C3_config_missing_witness :
    connect_hana true envNoAddr dialOkAll tbConst 3 1
      = ⟨0, [], Except.error (Exc.runtimeError cfgMissingMsg)⟩ :=
  C3_config_missing envNoAddr ⟨none, 443, some "alice", some "secretpw", true, false⟩
    dialOkAll tbConst 3 1 rfl (Or.inl (by decide))

/-- C4: the api_ok wrapper is a total mapping from a handler outcome to a
response, so no exception escapes it; a RuntimeError — the type of both
the Configuration Error and the Connection Error — yields HTTP 502 with
body error connection_error and the message text, and any other
exception yields HTTP 500 with body error internal, the message text and
a trace, nonempty whenever the traceback formatter never returns the
empty string (Python traceback.format_exc inside an except clause never
does). -/
theorem C4_envelope (tbFmt : Exc → String) (hne : ∀ ex, tbFmt ex ≠ "")
    (r : HttpResponse) (m t m2 : String) :
    api_ok tbFmt (Except.ok r) = r ∧
    api_ok tbFmt (Except.error (Exc.runtimeError m))
      = ⟨502, JVal.jobj [("error", JVal.jstr "connection_error"), ("message", JVal.jstr m)]⟩ ∧
    api_ok tbFmt (Except.error (Exc.otherExc t m2))
      = ⟨500, JVal.jobj [("error", JVal.jstr "internal"), ("message", JVal.jstr m2),
          ("trace", JVal.jstr (tbFmt (Exc.otherExc t m2)))]⟩ ∧
    tbFmt (Exc.otherExc t m2) ≠ "" :=
  ⟨rfl, rfl, rfl, hne (Exc.otherExc t m2)⟩

/-- C4, witnessed on concrete outcomes of each class. -/
theorem C4_envelope_witness :
    api_ok tbConst (Except.ok ⟨200, JVal.jobj []⟩) = ⟨200, JVal.jobj []⟩ ∧
    api_ok tbConst (Except.error (Exc.runtimeError cfgMissingMsg))
      = ⟨502, JVal.jobj [("error", JVal.jstr "connection_error"),
          ("message", JVal.jstr cfgMissingMsg)]⟩ ∧
    api_ok tbConst (Except.error (Exc.otherExc "ProgrammingError" "SQL error"))
      = ⟨500, JVal.jobj [("error", JVal.jstr "internal"), ("message", JVal.jstr "SQL error"),
          ("trace", JVal.jstr (tbConst (Exc.otherExc "ProgrammingError" "SQL error")))]⟩ ∧
    tbConst (Exc.otherExc "ProgrammingError" "SQL error") ≠ "" :=
  C4_envelope tbConst (fun _ => by unfold tbConst; decide) ⟨200, JVal.jobj []⟩ cfgMissingMsg
    "ProgrammingError" "SQL error"

/-- C5 as stated fails on the code: the terminal Connection Error raised
after retries are exhausted has exactly the same kind (Python type,
RuntimeError) as the Configuration Error raised for missing fields and
as the missing-driver error, so it is not distinguishable from them by
kind — here both connect failures and the driver failure carry the kind
runtimeErrorKind. -/
theorem C5_counterexample :
    errKindOf (connect_hana true envFull dialFailAll tbConst 3 1).result
      = errKindOf (connect_hana true envNoAddr dialFailAll tbConst 3 1).result ∧
    errKindOf (connect_hana true envFull dialFailAll tbConst 3 1).result
      = some ExcKind.runtimeErrorKind ∧
    errKindOf (connect_hana false envFull dialFailAll tbConst 3 1).result
      = some ExcKind.runtimeErrorKind :=
  ⟨rfl, rfl, rfl⟩

/-- C5 amended: the terminal Connection Error, the missing-configuration
error and the missing-driver error are all raised with one and the same
kind, RuntimeError; that shared kind is distinguishable from every other
exception kind the program can propagate (which is all the envelope
middleware needs), but the Connection Error is not distinguishable by
kind from the Configuration Errors — only by message text. -/
theorem C5_error_kinds (env1 env2 : EnvVars) (cfg1 cfg2 : HanaCfg)
    (dial : Nat → HanaCfg → Except Exc Unit) (tbFmt : Exc → String)
    (b : ℚ) (e : Nat → Exc)
    (hc1 : hana_cfg env1 = Except.ok cfg1)
    (ha1 : optStrTruthy cfg1.address = true)
    (hu1 : optStrTruthy cfg1.user = true)
    (hp1 : optStrTruthy cfg1.password = true)
    (hdial : ∀ i, dial i cfg1 = Except.error (e i))
    (hc2 : hana_cfg env2 = Except.ok cfg2)
    (hmiss : optStrTruthy cfg2.address = false ∨ optStrTruthy cfg2.user = false ∨
      optStrTruthy cfg2.password = false) :
    errKindOf (connect_hana true env1 dial tbFmt 3 b).result
      = some ExcKind.runtimeErrorKind ∧
    errKindOf (connect_hana true env2 dial tbFmt 3 b).result
      = some ExcKind.runtimeErrorKind ∧
    errKindOf (connect_hana false env1 dial tbFmt 3 b).result
      = some ExcKind.runtimeErrorKind ∧
    (∀ t m, Exc.kind (Exc.otherExc t m) ≠ ExcKind.runtimeErrorKind) := by
  refine ⟨?_, ?_, rfl, ?_⟩
  · rw [connect_hana_allFail env1 cfg1 dial tbFmt b e hc1 ha1 hu1 hp1 hdial]; rfl
  · rw [connect_hana_missing env2 cfg2 dial tbFmt 3 b hc2 hmiss]; rfl
  · intro t m h
    exact ExcKind.noConfusion h

/-- C5 amended, witnessed on concrete environments. -/
theorem C5_error_kinds_witness :
    errKindOf (connect_hana true envFull dialFailAll tbConst 3 1).result
      = some ExcKind.runtimeErrorKind ∧
    errKindOf (connect_hana true envNoAddr dialFailAll tbConst 3 1).result
      = some ExcKind.runtimeErrorKind ∧
    errKindOf (connect_hana false envFull dialFailAll tbConst 3 1).result
      = some ExcKind.runtimeErrorKind ∧
    (∀ t m, Exc.kind (Exc.otherExc t m) ≠ ExcKind.runtimeErrorKind) :=
  C5_error_kinds envFull envNoAddr cfgFull
    ⟨none, 443, some "alice", some "secretpw", true, false⟩
    dialFailAll tbConst 1 (fun _ => excRefused)
    rfl (by decide) (by decide) (by decide) (fun _ => rfl)
    rfl (Or.inl (by decide))

/-- C6 fails on the code: with a complete configuration and a first-try
connection, when SQL execution raises, both list_products and
insert_product propagate the exception with zero conn.close calls — the
session leaks; close is reached only on the success path, where it
happens exactly once. -/
theorem C6_session_leak :
    (list_products true envFull dialOkAll tbConst dbSample (some sqlBoom)).closes = 0 ∧
    (list_products true envFull dialOkAll tbConst dbSample (some sqlBoom)).result
      = Except.error sqlBoom ∧
    (list_products true envFull dialOkAll tbConst dbSample none).closes = 1 ∧
    (insert_product true envFull dialOkAll tbConst dbSample payloadNamed (some sqlBoom)).closes = 0 ∧
    (insert_product true envFull dialOkAll tbConst dbSample payloadNamed (some sqlBoom)).result
      = Except.error sqlBoom ∧
    (insert_product true envFull dialOkAll tbConst dbSample payloadNamed none).closes = 1 :=
  ⟨rfl, rfl, rfl, rfl, rfl, rfl⟩

/-- C7: a POST /product body whose name is missing or empty (falsy)
yields 400 name_required with zero dial attempts; otherwise, with the
connection succeeding and SQL succeeding, the handler returns 201 with
product_id equal to the greatest existing identifier plus one, and equal
to 1 on an empty table. -/
theorem C7_insert (env : EnvVars) (cfg : HanaCfg)
    (dial : Nat → HanaCfg → Except Exc Unit) (tbFmt : Exc → String)
    (db : List ProductRow) (payload : List (String × JVal))
    (hc : hana_cfg env = Except.ok cfg)
    (ha : optStrTruthy cfg.address = true)
    (hu : optStrTruthy cfg.user = true)
    (hp : optStrTruthy cfg.password = true)
    (hdial : ∀ i c, dial i c = Except.ok ()) :
    (jTruthy (dictGet payload "name") = false →
        insert_product true env dial tbFmt db payload none
          = ⟨Except.ok ⟨400, JVal.jobj [("error", JVal.jstr "name_required")]⟩, 0, [], 0, db⟩) ∧
    (jTruthy (dictGet payload "name") = true →
        ∃ newId : Int,
          (insert_product true env dial tbFmt db payload none).result
            = Except.ok ⟨201, JVal.jobj [("status", JVal.jstr "ok"),
                ("product_id", JVal.jint newId)]⟩ ∧
          (db = [] → newId = 1) ∧
          (∀ r ∈ db, r.product_id < newId) ∧
          (db ≠ [] → ∃ r ∈ db, newId = r.product_id + 1)) := by
  have hcf := connect_hana_firstTry env cfg dial tbFmt hc ha hu hp (hdial 1 cfg)
  constructor
  · intro h
    simp [insert_product, h]
  · intro h
    refine ⟨(dbMaxId db).getD 0 + 1, ?_, ?_, ?_, ?_⟩
    · simp [insert_product, h, hcf]
    · intro hdb; subst hdb; simp [dbMaxId]
    · intro r hr
      cases db with
      | nil => simp at hr
      | cons x xs =>
        cases hm : dbMaxId (x :: xs) with
        | none => exact absurd hm (dbMaxId_ne_none x xs)
        | some m =>
          have hle := (dbMaxId_spec (x :: xs) m hm).2 r hr
          simp only [Option.getD_some]
          omega
    · intro hne
      cases db with
      | nil => exact absurd rfl hne
      | cons x xs =>
        cases hm : dbMaxId (x :: xs) with
        | none => exact absurd hm (dbMaxId_ne_none x xs)
        | some m =>
          obtain ⟨r0, hr0, hid⟩ := (dbMaxId_spec (x :: xs) m hm).1
          exact ⟨r0, hr0, by simp only [Option.getD_some]; rw [hid]⟩

/-- C7, witnessed against a table whose greatest identifier is 5. -/
theorem C7_insert_witness :
    (jTruthy (dictGet payloadNamed "name") = false →
        insert_product true envFull dialOkAll tbConst dbSample payloadNamed none
          = ⟨Except.ok ⟨400, JVal.jobj [("error", JVal.jstr "name_required")]⟩, 0, [], 0,
              dbSample⟩) ∧
    (jTruthy (dictGet payloadNamed "name") = true →
        ∃ newId : Int,
          (insert_product true envFull dialOkAll tbConst dbSample payloadNamed none).result
            = Except.ok ⟨201, JVal.jobj [("status", JVal.jstr "ok"),
                ("product_id", JVal.jint newId)]⟩ ∧
          (dbSample = [] → newId = 1) ∧
          (∀ r ∈ dbSample, r.product_id < newId) ∧
          (dbSample ≠ [] → ∃ r ∈ dbSample, newId = r.product_id + 1)) :=
  C7_insert envFull cfgFull dialOkAll tbConst dbSample payloadNamed
    rfl (by decide) (by decide) (by decide) (fun _ _ => rfl)

/-- C8: a PUT /product body without the description key yields 400
description_required with zero dial attempts; with the key present at a
non-null value — the empty string included — and the connection and SQL
succeeding, every row whose NAME matches the path parameter exactly is
updated and the handler returns 200 with rows_affected the number of
matching rows, zero matches included. -/
theorem C8_update (env : EnvVars) (cfg : HanaCfg)
    (dial : Nat → HanaCfg → Except Exc Unit) (tbFmt : Exc → String)
    (db : List ProductRow) (name : String) (payload : List (String × JVal)) (v : JVal)
    (hc : hana_cfg env = Except.ok cfg)
    (ha : optStrTruthy cfg.address = true)
    (hu : optStrTruthy cfg.user = true)
    (hp : optStrTruthy cfg.password = true)
    (hdial : ∀ i c, dial i c = Except.ok ()) :
    (payload.find? (fun p => p.1 == "description") = none →
        update_product true env dial tbFmt db name payload none
          = ⟨Except.ok ⟨400, JVal.jobj [("error", JVal.jstr "description_required")]⟩,
              0, [], 0, db⟩) ∧
    (payload.find? (fun p => p.1 == "description") = some ("description", v) →
      v ≠ JVal.jnull →
        update_product true env dial tbFmt db name payload none
          = ⟨Except.ok ⟨200, JVal.jobj [("status", JVal.jstr "ok"),
              ("rows_affected", JVal.jint ((db.filter (fun r => r.name == name)).length : Int))]⟩,
              1, [], 1,
              db.map (fun r => if r.name == name then
                ⟨r.product_id, r.name, v, r.vector⟩ else r)⟩) := by
  have hcf := connect_hana_firstTry env cfg dial tbFmt hc ha hu hp (hdial 1 cfg)
  constructor
  · intro h
    have hdg : dictGet payload "description" = JVal.jnull := by simp [dictGet, h]
    simp [update_product, hdg, isPyNone]
  · intro h hv
    have hdg : dictGet payload "description" = v := by simp [dictGet, h]
    have hnp : isPyNone v = false := by
      cases v
      case jnull => exact absurd rfl hv
      all_goals simp [isPyNone]
    simp [update_product, hdg, hnp, hcf]

/-- C8, witnessed with an empty-string description against a table with
one matching row. -/
theorem C8_update_witness :
    (payloadDescEmpty.find? (fun p => p.1 == "description") = none →
        update_product true envFull dialOkAll tbConst dbSample "Widget" payloadDescEmpty none
          = ⟨Except.ok ⟨400, JVal.jobj [("error", JVal.jstr "description_required")]⟩,
              0, [], 0, dbSample⟩) ∧
    (payloadDescEmpty.find? (fun p => p.1 == "description")
        = some ("description", JVal.jstr "") →
      JVal.jstr "" ≠ JVal.jnull →
        update_product true envFull dialOkAll tbConst dbSample "Widget" payloadDescEmpty none
          = ⟨Except.ok ⟨200, JVal.jobj [("status", JVal.jstr "ok"),
              ("rows_affected",
                JVal.jint ((dbSample.filter (fun r => r.name == "Widget")).length : Int))]⟩,
              1, [], 1,
              dbSample.map (fun r => if r.name == "Widget" then
                ⟨r.product_id, r.name, JVal.jstr "", r.vector⟩ else r)⟩) :=
  C8_update envFull cfgFull dialOkAll tbConst dbSample "Widget" payloadDescEmpty
    (JVal.jstr "") rfl (by decide) (by decide) (by decide) (fun _ _ => rfl)

/-- C9: a PUT /product body whose description key is present with a null
value receives 400 description_required exactly as if the key were
absent, with no dial attempt — the source tests the fetched value with
is None, which cannot tell a stored None from a missing key. -/
theorem C9_null_description (driver : Bool) (env : EnvVars)
    (dial : Nat → HanaCfg → Except Exc Unit) (tbFmt : Exc → String)
    (db : List ProductRow) (name : String) (payload : List (String × JVal))
    (h : payload.find? (fun p => p.1 == "description") = some ("description", JVal.jnull)) :
    update_product driver env dial tbFmt db name payload none
      = ⟨Except.ok ⟨400, JVal.jobj [("error", JVal.jstr "description_required")]⟩,
          0, [], 0, db⟩ := by
  have hdg : dictGet payload "description" = JVal.jnull := by simp [dictGet, h]
  simp [update_product, hdg, isPyNone]

/-- C9, witnessed on the body carrying description null. -/
theorem C9_null_description_witness :
    update_product true envFull dialOkAll tbConst dbSample "Widget" payloadDescNull none
      = ⟨Except.ok ⟨400, JVal.jobj [("error", JVal.jstr "description_required")]⟩,
          0, [], 0, dbSample⟩ :=
  C9_null_description true envFull dialOkAll tbConst dbSample "Widget" payloadDescNull rfl

/-- C10: with the driver present and the port environment variable set to
a non-numeric string, configuration resolution raises a ValueError, the
handler performs no dial attempt, and the envelope maps the failure to
HTTP 500 with error internal — not to the 502 connection_error shape —
because a ValueError is not a RuntimeError. -/
theorem C10_bad_port (env : EnvVars) (dial : Nat → HanaCfg → Except Exc Unit)
    (tbFmt : Exc → String) (db : List ProductRow) (s : String)
    (hport : env.HANA_PORT = some s) (hbad : pyIntParse s = none) :
    hana_cfg env = Except.error (Exc.otherExc "ValueError" (intParseErrMsg s)) ∧
    (list_products true env dial tbFmt db none).attempts = 0 ∧
    api_ok tbFmt (list_products true env dial tbFmt db none).result
      = ⟨500, JVal.jobj [("error", JVal.jstr "internal"),
          ("message", JVal.jstr (intParseErrMsg s)),
          ("trace", JVal.jstr (tbFmt (Exc.otherExc "ValueError" (intParseErrMsg s))))]⟩ := by
  have hcfg : hana_cfg env = Except.error (Exc.otherExc "ValueError" (intParseErrMsg s)) := by
    simp [hana_cfg, parsePort, hport, hbad]
  have hconn : connect_hana true env dial tbFmt 3 1
      = ⟨0, [], Except.error (Exc.otherExc "ValueError" (intParseErrMsg s))⟩ := by
    simp [connect_hana, hcfg]
  refine ⟨hcfg, ?_, ?_⟩
  · simp [list_products, hconn]
  · simp [list_products, hconn, api_ok]

/-- C10, witnessed on the port string abc. -/
theorem C10_bad_port_witness :
    hana_cfg envBadPort = Except.error (Exc.otherExc "ValueError" (intParseErrMsg "abc")) ∧
    (list_products true envBadPort dialOkAll tbConst dbSample none).attempts = 0 ∧
    api_ok tbConst (list_products true envBadPort dialOkAll tbConst dbSample none).result
      = ⟨500, JVal.jobj [("error", JVal.jstr "internal"),
          ("message", JVal.jstr (intParseErrMsg "abc")),
          ("trace", JVal.jstr (tbConst (Exc.otherExc "ValueError" (intParseErrMsg "abc"))))]⟩ :=
  C10_bad_port envBadPort dialOkAll tbConst dbSample "abc" rfl rfl
